import Mathlib

/-!
Verification of the sandbox orchestration subsystem of the ecomcoder
repository: the port allocator (`src/services/portAllocationService.ts`),
the tunnel manager (`src/services/tunnelService.ts`), and the dev-server
orchestration (`src/services/themeService.ts` together with the second
in-repo variant of the same module, `src/unnamed/part_002`).

The TypeScript services are embedded shallowly: the datastore is a list of
sandbox records threaded explicitly, the in-process tunnel registry is an
association list threaded explicitly, and the outcomes of external calls
(the ngrok `forward` call, the `listener.close()` call, TCP probe
attempts, the child process run) are passed in as explicit parameters.
Datastore read/write errors correspond to the source's early-return paths
that leave the store untouched.
-/

namespace EcomCoder

/-! ## Port allocation service (`src/services/portAllocationService.ts`) -/

def DEV_PORT_START : Nat := 5100
def DEV_PORT_END : Nat := 5400
def PROXY_PORT_START : Nat := 6100
def PROXY_PORT_END : Nat := 6400

/-- Number of offsets scanned by the allocation loop
`for (let i = 0; i <= (DEV_PORT_END - DEV_PORT_START); i++)`:
offsets `0 .. DEV_PORT_END - DEV_PORT_START`, i.e. 301 of them. -/
def poolSize : Nat := DEV_PORT_END - DEV_PORT_START + 1

/-- The scan loop of `findAvailablePortPair`, starting at offset `i` with
`fuel` iterations left.  The loop body returns the pair as soon as both the
dev port and the proxy port at the current offset are unused. -/
def findSlotLoop (usedDevPorts usedProxyPorts : List Nat) : Nat → Nat → Option (Nat × Nat)
  | _, 0 => none
  | i, fuel + 1 =>
    let devPort := DEV_PORT_START + i
    let proxyPort := PROXY_PORT_START + i
    if devPort ∉ usedDevPorts ∧ proxyPort ∉ usedProxyPorts then
      some (devPort, proxyPort)
    else
      findSlotLoop usedDevPorts usedProxyPorts (i + 1) fuel

/-- `findAvailablePortPair`, as a function of the rows returned by the
datastore query (the `(dev_port, proxy_port)` pairs of every sandbox with
both columns non-null).  Builds the two used-port collections and scans the
pool sequentially. -/
def findAvailablePortPair (sandboxes : List (Nat × Nat)) : Option (Nat × Nat) :=
  let usedDevPorts := sandboxes.map Prod.fst
  let usedProxyPorts := sandboxes.map Prod.snd
  findSlotLoop usedDevPorts usedProxyPorts 0 poolSize

/-- A row of the `user_sandboxes` table, restricted to the columns the
port allocator reads and writes. -/
structure SandboxRecord where
  id : String
  dev_port : Option Nat
  proxy_port : Option Nat
  last_used : Nat
deriving Repr, DecidableEq

/-- The rows selected by
`.select('dev_port, proxy_port').not('dev_port','is',null).not('proxy_port','is',null)`:
sandboxes with both ports assigned. -/
def assignedPairs (db : List SandboxRecord) : List (Nat × Nat) :=
  db.filterMap fun r =>
    match r.dev_port, r.proxy_port with
    | some d, some p => some (d, p)
    | _, _ => none

/-- JavaScript truthiness of a nullable numeric column: `null` and `0` are
falsy (the source tests `if (sandbox.dev_port && sandbox.proxy_port)`). -/
def optNatTruthy : Option Nat → Bool
  | none => false
  | some n => n != 0

/-- `.select(...).eq('id', sandboxId).single()`: succeeds exactly when one
row matches, errors otherwise (the error path returns null upstream). -/
def selectSingle (db : List SandboxRecord) (sandboxId : String) : Option SandboxRecord :=
  match db.filter (fun r => r.id == sandboxId) with
  | [r] => some r
  | _ => none

/-- Result of `getPortsForSandbox`: the returned pair (or null), the
datastore after the call, and whether a fresh pair was allocated and
written back. -/
structure PortLookupOutcome where
  ports : Option (Nat × Nat)
  db : List SandboxRecord
  allocated : Bool
deriving Repr, DecidableEq

/-- `getPortsForSandbox`: reuse the persisted pair when both ports are
truthy; otherwise call `findAvailablePortPair` over the assigned pairs and
persist the fresh pair on the sandbox row (also touching `last_used`).
All error paths of the source return null and leave the store untouched. -/
def getPortsForSandbox (db : List SandboxRecord) (sandboxId : String) (now : Nat) :
    PortLookupOutcome :=
  match selectSingle db sandboxId with
  | none => ⟨none, db, false⟩
  | some sandbox =>
    if optNatTruthy sandbox.dev_port && optNatTruthy sandbox.proxy_port then
      ⟨some (sandbox.dev_port.getD 0, sandbox.proxy_port.getD 0), db, false⟩
    else
      match findAvailablePortPair (assignedPairs db) with
      | none => ⟨none, db, false⟩
      | some (devPort, proxyPort) =>
        ⟨some (devPort, proxyPort),
         db.map fun r =>
           if r.id == sandboxId then
             { r with dev_port := some devPort, proxy_port := some proxyPort,
                      last_used := now }
           else r,
         true⟩

/-- The record deletion performed by `app/api/delete-sandbox/route.ts`:
`supabase.from('user_sandboxes').delete().eq('id', sandboxId)`. -/
def deleteSandboxRecord (db : List SandboxRecord) (sandboxId : String) : List SandboxRecord :=
  db.filter fun r => !(r.id == sandboxId)

/-! ### Specification predicates for the allocator -/

/-- Offset `i` is free with respect to the two used-port lists. -/
def slotFree (usedDev usedProxy : List Nat) (i : Nat) : Prop :=
  DEV_PORT_START + i ∉ usedDev ∧ PROXY_PORT_START + i ∉ usedProxy

/-- Offset `i` is free with respect to the queried assigned pairs. -/
def pairFree (sandboxes : List (Nat × Nat)) (i : Nat) : Prop :=
  slotFree (sandboxes.map Prod.fst) (sandboxes.map Prod.snd) i

theorem findSlotLoop_some (ud up : List Nat) :
    ∀ fuel i d p, findSlotLoop ud up i fuel = some (d, p) →
      ∃ k, k < fuel ∧ d = DEV_PORT_START + (i + k) ∧ p = PROXY_PORT_START + (i + k) ∧
        slotFree ud up (i + k) ∧ ∀ m, m < k → ¬ slotFree ud up (i + m) := by
  intro fuel
  induction fuel with
  | zero =>
    intro i d p h
    simp [findSlotLoop] at h
  | succ fuel ih =>
    intro i d p h
    rw [findSlotLoop] at h
    by_cases hfree : DEV_PORT_START + i ∉ ud ∧ PROXY_PORT_START + i ∉ up
    · rw [if_pos hfree] at h
      refine ⟨0, Nat.succ_pos _, ?_, ?_, ?_, ?_⟩
      · simpa using (Option.some.injEq _ _ ▸ congrArg (fun o => o.map Prod.fst) h.symm)
      · simpa using (Option.some.injEq _ _ ▸ congrArg (fun o => o.map Prod.snd) h.symm)
      · simpa [slotFree] using hfree
      · intro m hm; omega
    · rw [if_neg hfree] at h
      obtain ⟨k, hk, hd, hp, hfree2, hleast⟩ := ih (i + 1) d p h
      have hshift : i + 1 + k = i + (k + 1) := by omega
      refine ⟨k + 1, by omega, ?_, ?_, ?_, ?_⟩
      · rw [hd, hshift]
      · rw [hp, hshift]
      · rw [← hshift]; exact hfree2
      · intro m hm
        cases m with
        | zero => simpa [slotFree] using hfree
        | succ m =>
          have : i + 1 + m = i + (m + 1) := by omega
          rw [← this]
          exact hleast m (by omega)

theorem findSlotLoop_none (ud up : List Nat) :
    ∀ fuel i, findSlotLoop ud up i fuel = none →
      ∀ k, k < fuel → ¬ slotFree ud up (i + k) := by
  intro fuel
  induction fuel with
  | zero => intro i _ k hk; omega
  | succ fuel ih =>
    intro i h k hk
    rw [findSlotLoop] at h
    by_cases hfree : DEV_PORT_START + i ∉ ud ∧ PROXY_PORT_START + i ∉ up
    · rw [if_pos hfree] at h; exact absurd h (by simp)
    · rw [if_neg hfree] at h
      cases k with
      | zero => simpa [slotFree] using hfree
      | succ k =>
        have : i + 1 + k = i + (k + 1) := by omega
        rw [← this]
        exact ih (i + 1) h k (by omega)

/-- C1: for every set of currently-assigned port pairs read from the
datastore, `findAvailablePortPair` returns the pair
`(5100 + i, 6100 + i)` at the smallest offset `i` in `0 .. poolSize - 1`
whose dev port is in none of the assigned dev ports and whose proxy port is
in none of the assigned proxy ports; if every offset has at least one of
its two ports taken, it returns null. -/
theorem findAvailablePortPair_correct (sandboxes : List (Nat × Nat)) :
    match findAvailablePortPair sandboxes with
    | some (d, p) =>
      ∃ i, i < poolSize ∧ d = DEV_PORT_START + i ∧ p = PROXY_PORT_START + i ∧
        pairFree sandboxes i ∧ ∀ j, j < i → ¬ pairFree sandboxes j
    | none => ∀ i, i < poolSize → ¬ pairFree sandboxes i := by
  cases h : findAvailablePortPair sandboxes with
  | none =>
    intro i hi
    have h0 : findSlotLoop (sandboxes.map Prod.fst) (sandboxes.map Prod.snd) 0 poolSize
        = none := by simpa [findAvailablePortPair] using h
    have := findSlotLoop_none _ _ poolSize 0 h0 i hi
    simpa [pairFree] using this
  | some dp =>
    obtain ⟨d, p⟩ := dp
    have h0 : findSlotLoop (sandboxes.map Prod.fst) (sandboxes.map Prod.snd) 0 poolSize
        = some (d, p) := by simpa [findAvailablePortPair] using h
    obtain ⟨k, hk, hd, hp, hfree, hleast⟩ := findSlotLoop_some _ _ poolSize 0 d p h0
    refine ⟨k, hk, by simpa using hd, by simpa using hp, ?_, ?_⟩
    · simpa [pairFree] using hfree
    · intro j hj hfj
      exact hleast j hj (by simpa [pairFree] using hfj)

/-- C2: a sandbox that already has both ports persisted gets exactly that
pair back from `getPortsForSandbox`, with no allocation and no write; a
second call (at any later time) returns the identical pair again, so a
refresh never changes a sandbox's ports.  JavaScript truthiness makes the
reuse test require nonzero ports, which holds for every allocator-assigned
port (they are all at least 5100). -/
theorem getPortsForSandbox_reuses_persisted
    (db : List SandboxRecord) (sandboxId : String) (r : SandboxRecord)
    (d p now now2 : Nat)
    (hsel : db.filter (fun s => s.id == sandboxId) = [r])
    (hd : r.dev_port = some d) (hp : r.proxy_port = some p)
    (hd0 : d ≠ 0) (hp0 : p ≠ 0) :
    getPortsForSandbox db sandboxId now = ⟨some (d, p), db, false⟩ ∧
    getPortsForSandbox (getPortsForSandbox db sandboxId now).db sandboxId now2 =
      ⟨some (d, p), db, false⟩ := by
  have h1 : ∀ t, getPortsForSandbox db sandboxId t = ⟨some (d, p), db, false⟩ := by
    intro t
    unfold getPortsForSandbox selectSingle
    rw [hsel]
    simp [optNatTruthy, hd, hp, hd0, hp0]
  refine ⟨h1 now, ?_⟩
  rw [h1 now]
  exact h1 now2

/-- Witness for C2 at a concrete one-row datastore. -/
theorem getPortsForSandbox_reuses_persisted_witness :
    getPortsForSandbox [⟨"sb1", some 5100, some 6100, 0⟩] "sb1" 5 =
      ⟨some (5100, 6100), [⟨"sb1", some 5100, some 6100, 0⟩], false⟩ ∧
    getPortsForSandbox
        (getPortsForSandbox [⟨"sb1", some 5100, some 6100, 0⟩] "sb1" 5).db "sb1" 7 =
      ⟨some (5100, 6100), [⟨"sb1", some 5100, some 6100, 0⟩], false⟩ :=
  getPortsForSandbox_reuses_persisted [⟨"sb1", some 5100, some 6100, 0⟩] "sb1"
    ⟨"sb1", some 5100, some 6100, 0⟩ 5100 6100 5 7
    (by decide) rfl rfl (by decide) (by decide)

/-! ### The port uniqueness invariant (C3) -/

/-- Reachable states assign both ports or neither (`getPortsForSandbox`
only ever writes both columns together). -/
def BothOrNeither (db : List SandboxRecord) : Prop :=
  ∀ r ∈ db, r.dev_port.isSome ↔ r.proxy_port.isSome

/-- No two records with distinct ids share a dev port or a proxy port. -/
def UniquePorts (db : List SandboxRecord) : Prop :=
  ∀ r ∈ db, ∀ s ∈ db, r.id ≠ s.id →
    (∀ n, r.dev_port = some n → s.dev_port ≠ some n) ∧
    (∀ n, r.proxy_port = some n → s.proxy_port ≠ some n)

/-- The datastore invariant: distinct row ids, both-or-neither port
columns, and port uniqueness across rows. -/
def PortInvariant (db : List SandboxRecord) : Prop :=
  (db.map SandboxRecord.id).Nodup ∧ BothOrNeither db ∧ UniquePorts db

theorem mem_assignedPairs {db : List SandboxRecord} {s : SandboxRecord} {n m : Nat}
    (hs : s ∈ db) (hn : s.dev_port = some n) (hm : s.proxy_port = some m) :
    (n, m) ∈ assignedPairs db :=
  List.mem_filterMap.2 ⟨s, hs, by rw [hn, hm]⟩

theorem findAvailablePortPair_fresh (sandboxes : List (Nat × Nat)) (d p : Nat)
    (h : findAvailablePortPair sandboxes = some (d, p)) :
    d ∉ sandboxes.map Prod.fst ∧ p ∉ sandboxes.map Prod.snd := by
  have h0 : findSlotLoop (sandboxes.map Prod.fst) (sandboxes.map Prod.snd) 0 poolSize
      = some (d, p) := by simpa [findAvailablePortPair] using h
  obtain ⟨k, _, hd, hp, hfree, _⟩ := findSlotLoop_some _ _ poolSize 0 d p h0
  subst hd; subst hp
  exact hfree

theorem portInvariant_update (db : List SandboxRecord) (sandboxId : String)
    (d p now : Nat)
    (hinv : PortInvariant db)
    (hdf : d ∉ (assignedPairs db).map Prod.fst)
    (hpf : p ∉ (assignedPairs db).map Prod.snd) :
    PortInvariant (db.map fun r =>
      if r.id == sandboxId then
        { r with dev_port := some d, proxy_port := some p, last_used := now }
      else r) := by
  obtain ⟨hnd, hbn, hup⟩ := hinv
  refine ⟨?_, ?_, ?_⟩
  · have hids : (db.map fun r =>
        if r.id == sandboxId then
          { r with dev_port := some d, proxy_port := some p, last_used := now }
        else r).map SandboxRecord.id = db.map SandboxRecord.id := by
      rw [List.map_map]
      refine List.map_congr_left fun r _ => ?_
      by_cases h : r.id = sandboxId <;> simp [h]
    rw [hids]; exact hnd
  · intro r' hr'
    rw [List.mem_map] at hr'
    obtain ⟨r, hr, rfl⟩ := hr'
    by_cases h : r.id = sandboxId
    · simp [h]
    · simpa [h] using hbn r hr
  · intro r' hr' s' hs' hne
    rw [List.mem_map] at hr' hs'
    obtain ⟨r, hr, rfl⟩ := hr'
    obtain ⟨s, hs, rfl⟩ := hs'
    by_cases hri : r.id = sandboxId <;> by_cases hsi : s.id = sandboxId
    · exfalso
      apply hne
      simp [hri, hsi]
    · constructor
      · intro n hn heq
        have hnd' : d = n := by simpa [hri] using hn
        subst hnd'
        have heq' : s.dev_port = some d := by simpa [hsi] using heq
        have hps : s.proxy_port.isSome := (hbn s hs).mp (by rw [heq']; rfl)
        obtain ⟨m, hm⟩ := Option.isSome_iff_exists.mp hps
        exact hdf (List.mem_map.2 ⟨(d, m), mem_assignedPairs hs heq' hm, rfl⟩)
      · intro n hn heq
        have hnp : p = n := by simpa [hri] using hn
        subst hnp
        have heq' : s.proxy_port = some p := by simpa [hsi] using heq
        have hds : s.dev_port.isSome := (hbn s hs).mpr (by rw [heq']; rfl)
        obtain ⟨m, hm⟩ := Option.isSome_iff_exists.mp hds
        exact hpf (List.mem_map.2 ⟨(m, p), mem_assignedPairs hs hm heq', rfl⟩)
    · constructor
      · intro n hn heq
        have hnd' : d = n := by simpa [hsi] using heq
        subst hnd'
        have hn' : r.dev_port = some d := by simpa [hri] using hn
        have hpr : r.proxy_port.isSome := (hbn r hr).mp (by rw [hn']; rfl)
        obtain ⟨m, hm⟩ := Option.isSome_iff_exists.mp hpr
        exact hdf (List.mem_map.2 ⟨(d, m), mem_assignedPairs hr hn' hm, rfl⟩)
      · intro n hn heq
        have hnp : p = n := by simpa [hsi] using heq
        subst hnp
        have hn' : r.proxy_port = some p := by simpa [hri] using hn
        have hdr : r.dev_port.isSome := (hbn r hr).mpr (by rw [hn']; rfl)
        obtain ⟨m, hm⟩ := Option.isSome_iff_exists.mp hdr
        exact hpf (List.mem_map.2 ⟨(m, p), mem_assignedPairs hr hm hn', rfl⟩)
    · have hne' : r.id ≠ s.id := by simpa [hri, hsi] using hne
      simpa [hri, hsi] using hup r hr s hs hne'

/-- C3: if every port assignment goes through `getPortsForSandbox` (hence
`findAvailablePortPair`) and allocations are serialized, the datastore
invariant — both-or-neither port columns and no two distinct sandboxes
sharing a dev port or a proxy port — holds at the empty initial store and
is preserved by every `getPortsForSandbox` step and by record deletion. -/
theorem portInvariant_preserved (db : List SandboxRecord) (sandboxId : String)
    (now : Nat) (hinv : PortInvariant db) :
    PortInvariant [] ∧
    PortInvariant (getPortsForSandbox db sandboxId now).db ∧
    PortInvariant (deleteSandboxRecord db sandboxId) := by
  refine ⟨by simp [PortInvariant, BothOrNeither, UniquePorts], ?_, ?_⟩
  · rcases hsel : selectSingle db sandboxId with _ | sandbox
    · simpa [getPortsForSandbox, hsel] using hinv
    · by_cases htr : (optNatTruthy sandbox.dev_port && optNatTruthy sandbox.proxy_port) = true
      · simpa [getPortsForSandbox, hsel, htr] using hinv
      · have htr' : (optNatTruthy sandbox.dev_port && optNatTruthy sandbox.proxy_port) = false :=
          Bool.eq_false_iff.mpr htr
        rcases hfind : findAvailablePortPair (assignedPairs db) with _ | dp
        · simpa [getPortsForSandbox, hsel, htr', hfind] using hinv
        · obtain ⟨d, p⟩ := dp
          have hdbeq : (getPortsForSandbox db sandboxId now).db = db.map fun r =>
              if r.id == sandboxId then
                { r with dev_port := some d, proxy_port := some p, last_used := now }
              else r := by
            simp [getPortsForSandbox, hsel, htr', hfind]
          rw [hdbeq]
          have hfresh := findAvailablePortPair_fresh _ d p hfind
          exact portInvariant_update db sandboxId d p now hinv hfresh.1 hfresh.2
  · obtain ⟨hnd, hbn, hup⟩ := hinv
    refine ⟨?_, ?_, ?_⟩
    · exact hnd.sublist ((List.filter_sublist db).map SandboxRecord.id)
    · intro r hr
      exact hbn r (List.mem_of_mem_filter hr)
    · intro r hr s hs hne
      exact hup r (List.mem_of_mem_filter hr) s (List.mem_of_mem_filter hs) hne

/-- Witness for C3: the invariant steps applied at a concrete two-row
store (one assigned sandbox, one fresh). -/
theorem portInvariant_preserved_witness :
    PortInvariant [] ∧
    PortInvariant (getPortsForSandbox
      [⟨"sb1", some 5100, some 6100, 0⟩, ⟨"sb2", none, none, 0⟩] "sb2" 9).db ∧
    PortInvariant (deleteSandboxRecord
      [⟨"sb1", some 5100, some 6100, 0⟩, ⟨"sb2", none, none, 0⟩] "sb2") :=
  portInvariant_preserved
    [⟨"sb1", some 5100, some 6100, 0⟩, ⟨"sb2", none, none, 0⟩] "sb2" 9
    (by
      refine ⟨by decide, ?_, ?_⟩
      · intro r hr
        fin_cases hr <;> decide
      · intro r hr s hs hne
        fin_cases hr <;> fin_cases hs <;> simp_all)

/-! ## Tunnel service (`src/services/tunnelService.ts`) -/

/-- An entry of the active-tunnel registry (the ngrok listener handle is
abstracted away; closing it is modelled by the `CloseOutcome` parameter of
`closeTunnel`). -/
structure TunnelData where
  url : String
  port : Nat
  userId : String
  sandboxId : String
  createdAt : Nat
deriving Repr, DecidableEq

/-- The `TunnelResult` interface returned by `createTunnel`. -/
structure TunnelResult where
  success : Bool
  publicUrl : Option String
  error : Option String
  tunnelId : Option String
deriving Repr, DecidableEq

/-- The module-level `activeTunnels` map, keyed by `"userId_sandboxId"`. -/
abbrev TunnelRegistry := List (String × TunnelData)

def getTunnelKey (userId sandboxId : String) : String :=
  userId ++ "_" ++ sandboxId

/-- Outcome of the race between `ngrok.forward(config)` and the 15 s
timeout: either the race rejects (provider failure, network error, or the
timeout winning), or a listener is obtained and `listener.url()` yields a
nullable string. -/
inductive ForwardOutcome where
  | rejected (msg : String)
  | listener (url : Option String)
deriving Repr, DecidableEq

def NGROK_TIMEOUT_MS : Nat := 15000

/-- JavaScript truthiness of a nullable string: `null` and `""` are falsy
(the source tests `if (!publicUrl) throw ...`). -/
def optStrTruthy : Option String → Bool
  | none => false
  | some s => s != ""

/-- JS `a || b` on a nullable string against a string default. -/
def jsOrStr (a : Option String) (b : String) : String :=
  match a with
  | some s => if s = "" then b else s
  | none => b

/-- `createTunnel`.  Returns the `TunnelResult`, the registry after the
call, and whether `ngrok.forward` was invoked.  The dedup branch answers
from the existing entry without touching the provider; the failure
branches (race rejected, or a falsy `listener.url()`) are caught and
reported as `success: false` without touching the registry. -/
def createTunnel (reg : TunnelRegistry) (port : Nat) (userId sandboxId : String)
    (now : Nat) (forward : ForwardOutcome) :
    TunnelResult × TunnelRegistry × Bool :=
  let tunnelKey := getTunnelKey userId sandboxId
  match reg.lookup tunnelKey with
  | some existingTunnel =>
    (⟨true, some existingTunnel.url, none, some tunnelKey⟩, reg, false)
  | none =>
    match forward with
    | .rejected msg => (⟨false, none, some msg, none⟩, reg, true)
    | .listener url =>
      if optStrTruthy url then
        let publicUrl := url.getD ""
        (⟨true, some publicUrl, none, some tunnelKey⟩,
         (tunnelKey, ⟨publicUrl, port, userId, sandboxId, now⟩) :: reg, true)
      else
        (⟨false, none, some "Failed to retrieve tunnel URL from ngrok", none⟩, reg, true)

/-- Outcome of `tunnel.listener.close()` in `closeTunnel`. -/
inductive CloseOutcome where
  | ok
  | threw (msg : String)
deriving Repr, DecidableEq

/-- `closeTunnel`: returns false and leaves the registry untouched when no
entry exists for the key; on a close exception the catch returns false
before the `delete`, so the entry stays. -/
def closeTunnel (reg : TunnelRegistry) (userId sandboxId : String)
    (close : CloseOutcome) : Bool × TunnelRegistry :=
  let tunnelKey := getTunnelKey userId sandboxId
  match reg.lookup tunnelKey with
  | none => (false, reg)
  | some _ =>
    match close with
    | .ok => (true, reg.filter fun kv => !(kv.fst == tunnelKey))
    | .threw _ => (false, reg)

/-- C6: for every `(userId, sandboxId)` that already has a live entry in
the tunnel registry, `createTunnel` returns `success: true` with the same
`publicUrl` as the existing entry, does not invoke the provider forward
call, and leaves the registry unchanged — at most one underlying tunnel
exists per key. -/
theorem createTunnel_dedup (reg : TunnelRegistry) (port : Nat)
    (userId sandboxId : String) (now : Nat) (forward : ForwardOutcome)
    (t : TunnelData)
    (hlive : reg.lookup (getTunnelKey userId sandboxId) = some t) :
    createTunnel reg port userId sandboxId now forward =
      (⟨true, some t.url, none, some (getTunnelKey userId sandboxId)⟩, reg, false) := by
  simp [createTunnel, hlive]

/-- Witness for C6 at a concrete registry holding a live entry. -/
theorem createTunnel_dedup_witness :
    createTunnel [(getTunnelKey "user1" "sb1",
        ⟨"https://abc123.ngrok-free.app", 6100, "user1", "sb1", 3⟩)]
      6100 "user1" "sb1" 9 (ForwardOutcome.rejected "provider down") =
      (⟨true, some "https://abc123.ngrok-free.app", none,
          some (getTunnelKey "user1" "sb1")⟩,
       [(getTunnelKey "user1" "sb1",
          ⟨"https://abc123.ngrok-free.app", 6100, "user1", "sb1", 3⟩)], false) :=
  createTunnel_dedup _ 6100 "user1" "sb1" 9 _ _ (by rfl)

/-- C9: for every `(userId, sandboxId)` with no entry in the tunnel
registry, `closeTunnel` returns false and leaves the registry unchanged,
whatever the close outcome would have been. -/
theorem closeTunnel_missing_key (reg : TunnelRegistry) (userId sandboxId : String)
    (close : CloseOutcome)
    (h : reg.lookup (getTunnelKey userId sandboxId) = none) :
    closeTunnel reg userId sandboxId close = (false, reg) := by
  simp [closeTunnel, h]

/-- Witness for C9 at a concrete registry that holds an entry for a
different key only. -/
theorem closeTunnel_missing_key_witness :
    closeTunnel [(getTunnelKey "other" "sbX",
        ⟨"https://zzz.ngrok-free.app", 6101, "other", "sbX", 0⟩)]
      "user1" "sb1" CloseOutcome.ok =
      (false, [(getTunnelKey "other" "sbX",
        ⟨"https://zzz.ngrok-free.app", 6101, "other", "sbX", 0⟩)]) :=
  closeTunnel_missing_key _ "user1" "sb1" CloseOutcome.ok (by rfl)

/-- C10: whenever `createTunnel` returns `success: false` (race rejected —
provider error or the 15 s timeout — or a missing URL), the registry is
returned unchanged: no entry is added for the requested key and all other
entries are untouched; an entry is added only on the success path. -/
theorem createTunnel_failure_leaves_registry (reg : TunnelRegistry) (port : Nat)
    (userId sandboxId : String) (now : Nat) (forward : ForwardOutcome)
    (h : (createTunnel reg port userId sandboxId now forward).1.success = false) :
    (createTunnel reg port userId sandboxId now forward).2.1 = reg := by
  rcases hl : reg.lookup (getTunnelKey userId sandboxId) with _ | t
  · cases forward with
    | rejected msg => simp [createTunnel, hl]
    | listener url =>
      by_cases hu : optStrTruthy url = true
      · exfalso
        rw [createTunnel.eq_def] at h
        simp [hl, hu] at h
      · simp [createTunnel, hl, hu]
  · exfalso
    rw [createTunnel.eq_def] at h
    simp [hl] at h

/-- Witness for C10: a timed-out forward call against a registry holding an
unrelated entry leaves that registry unchanged. -/
theorem createTunnel_failure_leaves_registry_witness :
    (createTunnel [(getTunnelKey "other" "sbX",
        ⟨"https://zzz.ngrok-free.app", 6101, "other", "sbX", 0⟩)]
      6100 "user1" "sb1" 4
      (ForwardOutcome.rejected
        "ngrok connection timeout after 15s - falling back to local URL")).2.1 =
      [(getTunnelKey "other" "sbX",
        ⟨"https://zzz.ngrok-free.app", 6101, "other", "sbX", 0⟩)] :=
  createTunnel_failure_leaves_registry _ 6100 "user1" "sb1" 4 _ (by rfl)

/-! ## Theme service: readiness probe (`themeService.ts`, step 6) -/

def maxAttempts : Nat := 60
def probeIntervalMs : Nat := 500
def probeSocketTimeoutMs : Nat := 1000

/-- Outcome of a single `checkPort` connection attempt: the socket
connects, the 1 s socket timeout fires, an `error` event fires, or the
attempt body throws. -/
inductive ProbeOutcome where
  | connected
  | timedOut
  | errored
  | threw
deriving Repr, DecidableEq

/-- The `checkPort` retry loop: `attempts` is the counter so far and
`fuel` the iterations remaining.  Each call increments the counter, stops
with `true` on a successful connect, stops with `false` once
`attempts >= maxAttempts`, and otherwise schedules itself again after
`probeIntervalMs`.  The loop stops after at most `maxAttempts` attempts,
so fuel `maxAttempts` is exact. -/
def checkPortLoop (outcome : Nat → ProbeOutcome) : Nat → Nat → Bool × Nat
  | attempts, 0 => (false, attempts)
  | attempts, fuel + 1 =>
    let attempts := attempts + 1
    match outcome attempts with
    | .connected => (true, attempts)
    | _ =>
      if maxAttempts ≤ attempts then (false, attempts)
      else checkPortLoop outcome attempts fuel

/-- The readiness-probe promise of `startDevServer`: run `checkPort` from
a zero counter; returns the resolved boolean and the number of connection
attempts performed. -/
def waitUntilReady (outcome : Nat → ProbeOutcome) : Bool × Nat :=
  checkPortLoop outcome 0 maxAttempts

theorem checkPortLoop_exhausts (outcome : Nat → ProbeOutcome)
    (h : ∀ n, outcome n ≠ ProbeOutcome.connected) :
    ∀ fuel attempts, attempts + fuel = maxAttempts → fuel ≠ 0 →
      checkPortLoop outcome attempts fuel = (false, maxAttempts) := by
  intro fuel
  induction fuel with
  | zero => intro attempts _ hf; exact absurd rfl hf
  | succ fuel ih =>
    intro attempts hsum _
    rw [checkPortLoop]
    cases hoc : outcome (attempts + 1) with
    | connected => exact absurd hoc (h _)
    | timedOut =>
      by_cases hle : maxAttempts ≤ attempts + 1
      · have : attempts + 1 = maxAttempts := by omega
        simp [hle, this]
      · rw [if_neg hle]
        exact ih (attempts + 1) (by omega) (by omega)
    | errored =>
      by_cases hle : maxAttempts ≤ attempts + 1
      · have : attempts + 1 = maxAttempts := by omega
        simp [hle, this]
      · rw [if_neg hle]
        exact ih (attempts + 1) (by omega) (by omega)
    | threw =>
      by_cases hle : maxAttempts ≤ attempts + 1
      · have : attempts + 1 = maxAttempts := by omega
        simp [hle, this]
      · rw [if_neg hle]
        exact ih (attempts + 1) (by omega) (by omega)

/-- C5: against a port where no connection attempt ever succeeds, the
readiness-probe loop performs exactly `maxAttempts = 60` connection
attempts and resolves false; the retry delay is 500 ms and the per-attempt
socket timeout 1000 ms, and the loop terminates (its attempt counter never
exceeds the bound). -/
theorem waitUntilReady_exhausts (outcome : Nat → ProbeOutcome)
    (h : ∀ n, outcome n ≠ ProbeOutcome.connected) :
    waitUntilReady outcome = (false, maxAttempts) ∧
    maxAttempts = 60 ∧ probeIntervalMs = 500 ∧ probeSocketTimeoutMs = 1000 :=
  ⟨checkPortLoop_exhausts outcome h maxAttempts 0 (by omega) (by decide), rfl, rfl, rfl⟩

/-- Witness for C5: every attempt times out. -/
theorem waitUntilReady_exhausts_witness :
    waitUntilReady (fun _ => ProbeOutcome.timedOut) = (false, maxAttempts) ∧
    maxAttempts = 60 ∧ probeIntervalMs = 500 ∧ probeSocketTimeoutMs = 1000 :=
  waitUntilReady_exhausts (fun _ => ProbeOutcome.timedOut) (fun _ h => nomatch h)

/-! ## Theme service: spawn interface (C8) -/

/-- Argument list built by `startDevServer` in
`src/services/themeService.ts` (lines 433-439): after the four credential
arguments it pushes the theme id, then the store password (empty string if
absent), then the single requested port. -/
def devThemeArgs_ts (userId sandboxId storeUrl apiKey : String) (themeId : Nat)
    (storePassword : Option String) (requestedPort : String) : List String :=
  [userId, sandboxId, storeUrl, apiKey] ++
    [toString themeId, storePassword.getD "", requestedPort]

/-- Argument list built by `startDevServer` in `src/unnamed/part_002`
(lines 234-241): theme id, dev port, proxy port, then the store password
(empty string if absent). -/
def devThemeArgs_p002 (userId sandboxId storeUrl apiKey : String)
    (themeId devPort proxyPort : Nat) (storePassword : Option String) : List String :=
  [userId, sandboxId, storeUrl, apiKey] ++
    [toString themeId, toString devPort, toString proxyPort, storePassword.getD ""]

/-- The spawn-argument order as the claim words it: user id, sandbox id,
store URL, API key, numeric theme id, app (dev) port, proxy port, and
finally the optional store password. -/
def specSpawnArgOrder (userId sandboxId storeUrl apiKey : String)
    (themeId devPort proxyPort : Nat) (storePassword : Option String) : List String :=
  [userId, sandboxId, storeUrl, apiKey, toString themeId, toString devPort,
   toString proxyPort, storePassword.getD ""]

/-- C8 counterexample: the `themeService.ts` variant of `startDevServer`
does not pass arguments in the claimed order — it builds a seven-element
list with the store password in position six and a single requested port
last, so no choice of dev/proxy ports makes it match the claimed
eight-argument shape. -/
theorem devThemeArgs_ts_not_spec_order :
    ¬ ∃ devPort proxyPort : Nat,
        devThemeArgs_ts "user1" "sb1" "store.myshopify.com" "shptka_key" 108267175958
            (some "pw") "auto" =
          specSpawnArgOrder "user1" "sb1" "store.myshopify.com" "shptka_key" 108267175958
            devPort proxyPort (some "pw") := by
  rintro ⟨d, p, h⟩
  have hl := congrArg List.length h
  simp [devThemeArgs_ts, specSpawnArgOrder] at hl

/-- C8 amended: the `part_002` variant of `startDevServer` (the caller
matching the checked-in `dev-theme.sh` interface) passes positional
arguments exactly in the claimed order — user id, sandbox id, store URL,
API key, theme id, dev port, proxy port, optional store password — while
the `themeService.ts` variant instead passes user id, sandbox id, store
URL, API key, theme id, store password, requested port. -/
theorem devThemeArgs_p002_matches_spec_order
    (userId sandboxId storeUrl apiKey : String) (themeId devPort proxyPort : Nat)
    (storePassword : Option String) (requestedPort : String) :
    devThemeArgs_p002 userId sandboxId storeUrl apiKey themeId devPort proxyPort
        storePassword =
      specSpawnArgOrder userId sandboxId storeUrl apiKey themeId devPort proxyPort
        storePassword ∧
    devThemeArgs_ts userId sandboxId storeUrl apiKey themeId storePassword
        requestedPort =
      [userId, sandboxId, storeUrl, apiKey, toString themeId,
       storePassword.getD "", requestedPort] :=
  ⟨rfl, rfl⟩

/-! ## Theme service: startDevServer orchestration (C4, C7) -/

/-- Leading decimal digits of a string: the `(\d+)` capture group of the
port patterns, matched right after the marker. -/
def leadingNat (s : String) : Option Nat :=
  let digits := s.takeWhile Char.isDigit
  if digits.isEmpty then none else digits.toNat?

/-- First occurrence of `marker` immediately followed by at least one
digit (the regex `marker(\d+)`). -/
def matchAfter (marker out : String) : Option Nat :=
  match out.splitOn marker with
  | [] => none
  | _ :: rests => rests.findSome? leadingNat

/-- First occurrence of `marker` followed by whitespace then digits (the
regex `marker\s+(\d+)`). -/
def matchAfterSpaces (marker out : String) : Option Nat :=
  match out.splitOn marker with
  | [] => none
  | _ :: rests =>
    rests.findSome? fun rest =>
      let ws := rest.takeWhile Char.isWhitespace
      if ws.isEmpty then none else leadingNat (rest.dropWhile Char.isWhitespace)

/-- The three ports tracked by the stdout monitor of the `themeService.ts`
variant. -/
structure ExtractedPorts where
  assignedPort : Option Nat
  shopifyPort : Option Nat
  proxyPort : Option Nat
deriving Repr, DecidableEq

/-- Net effect of the stdout port-extraction logic of the
`themeService.ts` variant over the full captured output (the streaming
matches and the final extraction pass collapse to this when the output
arrives as one chunk): `ASSIGNED_PORT=` or the human-readable proxy line
sets assigned and proxy together, the Shopify markers set the Shopify
port, and a `PROXY_PORT=` match overrides both assigned and proxy. -/
def extractPorts (output : String) : ExtractedPorts :=
  let fromAssigned := matchAfter "ASSIGNED_PORT=" output
  let fromProxyHuman := matchAfterSpaces "Proxy Port:" output
  let ap0 : Option Nat :=
    match fromAssigned with
    | some a => some a
    | none => fromProxyHuman
  let shopifyPort : Option Nat :=
    match matchAfter "SHOPIFY_PORT=" output with
    | some v => some v
    | none => matchAfterSpaces "Shopify Port:" output
  match matchAfter "PROXY_PORT=" output with
  | some v => ⟨some v, shopifyPort, some v⟩
  | none => ⟨ap0, shopifyPort, ap0⟩

/-- JS `a || b` on a nullable number against a numeric default
(`null` and `0` are falsy). -/
def jsOrNat (a : Option Nat) (b : Nat) : Nat :=
  match a with
  | some n => if n = 0 then b else n
  | none => b

/-- Observable behaviour of the spawned child during the
startup-monitoring window: the concatenated stdout, and the message of the
spawn `error` event if one fired (the only event that rejects the startup
wait; a child that exits silently produces no output and no error event,
and the wait auto-resolves after 30 s). -/
structure ChildRun where
  output : String
  errorEvent : Option String
deriving Repr, DecidableEq

/-- The result record returned by both `startDevServer` variants. -/
structure StartDevResult where
  success : Bool
  output : Option String
  error : Option String
  assignedPort : Option Nat
  shopifyPort : Option Nat
  proxyPort : Option Nat
  publicUrl : Option String
deriving Repr, DecidableEq

/-- `startDevServer` of `src/services/themeService.ts`: spawn, monitor,
auto-resolve, extract ports, probe (whose boolean result is unused by the
return value), then create a tunnel whose failure is swallowed — the
function returns `success: true` with `publicUrl` unset on any tunnel
failure.  Only the spawn `error` event reaches the outer catch. -/
def startDevServer_ts (reg : TunnelRegistry) (userId sandboxId : String) (now : Nat)
    (run : ChildRun) (forward : ForwardOutcome) : StartDevResult × TunnelRegistry :=
  match run.errorEvent with
  | some msg => (⟨false, none, some msg, none, none, none, none⟩, reg)
  | none =>
    let ep := extractPorts run.output
    let tunnelPort := jsOrNat ep.proxyPort (jsOrNat ep.assignedPort 4000)
    let ct := createTunnel reg tunnelPort userId sandboxId now forward
    let tunnelResult := ct.1
    let publicTunnelUrl :=
      if tunnelResult.success && optStrTruthy tunnelResult.publicUrl then
        tunnelResult.publicUrl
      else none
    (⟨true,
      some ("✅ Dev server with X-Frame-Options removal proxy started successfully in background.\n"
        ++ run.output),
      none, ep.assignedPort, ep.shopifyPort, ep.proxyPort, publicTunnelUrl⟩,
     ct.2.1)

/-- `refreshDevServer` of `src/services/themeService.ts`: structurally the
same monitor/extract/probe/tunnel sequence against `refresh-dev-server.sh`,
with tunnel failure equally non-fatal. -/
def refreshDevServer_ts (reg : TunnelRegistry) (userId sandboxId : String) (now : Nat)
    (run : ChildRun) (forward : ForwardOutcome) : StartDevResult × TunnelRegistry :=
  match run.errorEvent with
  | some msg => (⟨false, none, some msg, none, none, none, none⟩, reg)
  | none =>
    let ep := extractPorts run.output
    let tunnelPort := jsOrNat ep.proxyPort (jsOrNat ep.assignedPort 4000)
    let ct := createTunnel reg tunnelPort userId sandboxId now forward
    let tunnelResult := ct.1
    let publicTunnelUrl :=
      if tunnelResult.success && optStrTruthy tunnelResult.publicUrl then
        tunnelResult.publicUrl
      else none
    (⟨true, some ("✅ Dev server refreshed successfully.\n" ++ run.output),
      none, ep.assignedPort, ep.shopifyPort, ep.proxyPort, publicTunnelUrl⟩,
     ct.2.1)

/-- `startDevServer` of `src/unnamed/part_002`: ports are passed in
pre-allocated, the tunnel targets the proxy port, and a failed tunnel (or
missing URL) throws, reaching the outer catch as `success: false`. -/
def startDevServer_p002 (reg : TunnelRegistry) (userId sandboxId : String)
    (devPort proxyPort now : Nat) (run : ChildRun) (forward : ForwardOutcome) :
    StartDevResult × TunnelRegistry :=
  match run.errorEvent with
  | some msg => (⟨false, none, some msg, none, none, none, none⟩, reg)
  | none =>
    let ct := createTunnel reg proxyPort userId sandboxId now forward
    let tunnelResult := ct.1
    if tunnelResult.success && optStrTruthy tunnelResult.publicUrl then
      (⟨true,
        some ("✅ Dev server with X-Frame-Options removal proxy started successfully in background.\n"
          ++ run.output),
        none, some proxyPort, some devPort, some proxyPort, tunnelResult.publicUrl⟩,
       ct.2.1)
    else
      (⟨false, none,
        some ("Failed to create ngrok tunnel: " ++ jsOrStr tunnelResult.error "Unknown error"),
        none, none, none, none⟩,
       ct.2.1)

/-- `refreshDevServer` of `src/unnamed/part_002`: close any existing
tunnel for the key, then delegate to its `startDevServer`. -/
def refreshDevServer_p002 (reg : TunnelRegistry) (userId sandboxId : String)
    (devPort proxyPort now : Nat) (close : CloseOutcome) (run : ChildRun)
    (forward : ForwardOutcome) : StartDevResult × TunnelRegistry :=
  let closed := closeTunnel reg userId sandboxId close
  startDevServer_p002 closed.2 userId sandboxId devPort proxyPort now run forward

/-- The forward call fails to deliver a usable URL: the race rejects, or
`listener.url()` is falsy. -/
def forwardFails : ForwardOutcome → Prop
  | .rejected _ => True
  | .listener url => optStrTruthy url = false

theorem createTunnel_fails (reg : TunnelRegistry) (port : Nat)
    (userId sandboxId : String) (now : Nat) (forward : ForwardOutcome)
    (hkey : reg.lookup (getTunnelKey userId sandboxId) = none)
    (hfail : forwardFails forward) :
    (createTunnel reg port userId sandboxId now forward).1.success = false ∧
    (createTunnel reg port userId sandboxId now forward).1.publicUrl = none ∧
    (createTunnel reg port userId sandboxId now forward).2.1 = reg := by
  cases forward with
  | rejected msg => simp [createTunnel, hkey]
  | listener url =>
    have hu : optStrTruthy url = false := hfail
    simp [createTunnel, hkey, hu]

/-- C4 counterexample: in the `part_002` variant of `startDevServer`, a
tunnel failure fails the whole start operation — with a healthy child and
a timed-out tunnel race the result has `success: false`, contradicting the
claim that a tunnel error never fails a start/refresh. -/
theorem startDevServer_p002_tunnel_failure_fatal :
    ((startDevServer_p002 [] "user1" "sb1" 5100 6100 0
        ⟨"Starting Shopify theme development server", none⟩
        (ForwardOutcome.rejected
          "ngrok connection timeout after 15s - falling back to local URL")).1).success
      = false := rfl

/-- C4 amended: when tunnel creation fails or times out (no live registry
entry to dedup against, and the forward race yields no usable URL), the
`themeService.ts` variant of start and refresh still completes with
`success: true`, an unset `publicUrl`, and an unchanged registry — but the
`part_002` variant of start and refresh fails the whole operation with
`success: false`. -/
theorem tunnelFailure_nonfatal_ts_fatal_p002
    (reg : TunnelRegistry) (userId sandboxId : String)
    (devPort proxyPort now : Nat) (run : ChildRun) (forward : ForwardOutcome)
    (close : CloseOutcome)
    (hrun : run.errorEvent = none)
    (hkey : reg.lookup (getTunnelKey userId sandboxId) = none)
    (hfail : forwardFails forward) :
    ((startDevServer_ts reg userId sandboxId now run forward).1.success = true ∧
     (startDevServer_ts reg userId sandboxId now run forward).1.publicUrl = none ∧
     (startDevServer_ts reg userId sandboxId now run forward).2 = reg ∧
     (refreshDevServer_ts reg userId sandboxId now run forward).1.success = true ∧
     (refreshDevServer_ts reg userId sandboxId now run forward).1.publicUrl = none) ∧
    ((startDevServer_p002 reg userId sandboxId devPort proxyPort now run
        forward).1.success = false ∧
     (refreshDevServer_p002 reg userId sandboxId devPort proxyPort now close run
        forward).1.success = false) := by
  have hts := createTunnel_fails reg
    (jsOrNat (extractPorts run.output).proxyPort
      (jsOrNat (extractPorts run.output).assignedPort 4000))
    userId sandboxId now forward hkey hfail
  have hp2 := createTunnel_fails reg proxyPort userId sandboxId now forward hkey hfail
  refine ⟨⟨?_, ?_, ?_, ?_, ?_⟩, ?_, ?_⟩
  · simp [startDevServer_ts, hrun]
  · simp [startDevServer_ts, hrun, hts.1]
  · simp [startDevServer_ts, hrun, hts.2.2]
  · simp [refreshDevServer_ts, hrun]
  · simp [refreshDevServer_ts, hrun, hts.1]
  · simp [startDevServer_p002, hrun, hp2.1]
  · simp [refreshDevServer_p002, closeTunnel, hkey, startDevServer_p002, hrun, hp2.1]

/-- Witness for C4 (amended) at a concrete empty registry, healthy child
output and a timed-out forward race. -/
theorem tunnelFailure_nonfatal_ts_fatal_p002_witness :
    ((startDevServer_ts [] "user1" "sb1" 0
        ⟨"Starting Shopify theme development server", none⟩
        (ForwardOutcome.rejected "timeout")).1.success = true ∧
     (startDevServer_ts [] "user1" "sb1" 0
        ⟨"Starting Shopify theme development server", none⟩
        (ForwardOutcome.rejected "timeout")).1.publicUrl = none ∧
     (startDevServer_ts [] "user1" "sb1" 0
        ⟨"Starting Shopify theme development server", none⟩
        (ForwardOutcome.rejected "timeout")).2 = [] ∧
     (refreshDevServer_ts [] "user1" "sb1" 0
        ⟨"Starting Shopify theme development server", none⟩
        (ForwardOutcome.rejected "timeout")).1.success = true ∧
     (refreshDevServer_ts [] "user1" "sb1" 0
        ⟨"Starting Shopify theme development server", none⟩
        (ForwardOutcome.rejected "timeout")).1.publicUrl = none) ∧
    ((startDevServer_p002 [] "user1" "sb1" 5100 6100 0
        ⟨"Starting Shopify theme development server", none⟩
        (ForwardOutcome.rejected "timeout")).1.success = false ∧
     (refreshDevServer_p002 [] "user1" "sb1" 5100 6100 0 CloseOutcome.ok
        ⟨"Starting Shopify theme development server", none⟩
        (ForwardOutcome.rejected "timeout")).1.success = false) :=
  tunnelFailure_nonfatal_ts_fatal_p002 [] "user1" "sb1" 5100 6100 0
    ⟨"Starting Shopify theme development server", none⟩
    (ForwardOutcome.rejected "timeout") CloseOutcome.ok rfl rfl trivial

/-- C7 counterexample: a child that exits before emitting any stdout
(empty output, no spawn `error` event) still yields `success: true` from
the `themeService.ts` variant of `startDevServer`, here with the tunnel
step failing too — the claim that this is reported as a startup failure is
false on the code. -/
theorem startDevServer_ts_silent_exit_reports_success :
    ((startDevServer_ts [] "user1" "sb1" 0 ⟨"", none⟩
        (ForwardOutcome.rejected "tunnel unavailable")).1).success = true := rfl

/-- C7 amended: `startDevServer` (themeService.ts variant) reports failure
exactly when the child fires a spawn `error` event; a child that exits
before emitting any output does not reject the startup wait — the wait
auto-resolves after 30 s and the operation returns `success: true`
regardless of the probe and tunnel outcomes. -/
theorem startDevServer_ts_failure_iff_spawn_error
    (reg : TunnelRegistry) (userId sandboxId : String) (now : Nat)
    (run : ChildRun) (forward : ForwardOutcome) :
    (startDevServer_ts reg userId sandboxId now run forward).1.success = true ↔
      run.errorEvent = none := by
  cases hre : run.errorEvent <;> simp [startDevServer_ts, hre]

end EcomCoder
